import Mathlib

/-!
Verification development for the weather-cli repository (src/weather.py).

The Python script is shallowly embedded as follows.

* JSON values (the results of json.loads) are the inductive type Json.
  Numbers are represented by exact rationals; the Python distinction
  between int and float is collapsed into Json.num, and the
  shortest-round-trip repr of binary doubles is replaced by exact
  decimal rendering.  No claim inspects a digit that depends on this.
* An HTTP exchange is a value of HttpResponse: the status code and the
  body already split by the JSON parser (body = none models a body that
  json.loads rejects).
* Python exceptions become the error side of Except PyErr; PyErr keeps
  the exception class and its message.  Message texts mirror CPython
  where they are determined by the source, and are representative
  otherwise.
* Side effects (the two GET requests, print to stdout, print to stderr,
  sys.exit) are recorded in a trace of Event values.  A request event
  keeps the base URL and the query parameters as an association list;
  percent-encoding of the query string is not modelled because no claim
  inspects the encoded URL.
-/

namespace WeatherCli

/-- JSON values as produced by json.loads.  Objects keep their key order. -/
inductive Json where
  | null
  | bool (b : Bool)
  | num (q : Rat)
  | str (s : String)
  | arr (elems : List Json)
  | obj (fields : List (String × Json))

/-- Python exceptions raised by the script.  Each constructor is one
exception class; the argument is the message (for KeyError, the already
repr-ed key, as str(KeyError(k)) shows it). -/
inductive PyErr where
  | runtimeError (msg : String)
  | valueError (msg : String)
  | typeError (msg : String)
  | keyError (reprKey : String)
  | indexError (msg : String)
  | attributeError (msg : String)
  | jsonDecodeError

/-- Observable actions of one invocation, in order of occurrence. -/
inductive Event where
  | request (url : String) (params : List (String × String))
  | out (line : String)
  | err (line : String)
  | exit (code : Nat)

/-- An HTTP response as seen by http_get: the status code, and the body
after JSON parsing (none when the body is not valid JSON). -/
structure HttpResponse where
  status : Nat
  body : Option Json

/-- str(e) for the modelled exceptions. -/
def pyErrStr : PyErr → String
  | .runtimeError m => m
  | .valueError m => m
  | .typeError m => m
  | .keyError r => r
  | .indexError m => m
  | .attributeError m => m
  | .jsonDecodeError => "Expecting value: line 1 column 1 (char 0)"

/-- Python type name of a Json value (int collapses into float, see the
module comment). -/
def jsonTypeName : Json → String
  | .null => "NoneType"
  | .bool _ => "bool"
  | .num _ => "float"
  | .str _ => "str"
  | .arr _ => "list"
  | .obj _ => "dict"

/-- Python truthiness of a Json value. -/
def pyTruthy : Json → Bool
  | .null => false
  | .bool b => b
  | .num q => !(q == 0)
  | .str s => !(s == "")
  | .arr l => !l.isEmpty
  | .obj kvs => !kvs.isEmpty

/-- str(x).  Containers would need the full repr, which no code path of
the script feeds into its output; a placeholder is used for them. -/
def pyStr : Json → String
  | .null => "None"
  | .bool true => "True"
  | .bool false => "False"
  | .str s => s
  | .num q => if q.den = 1 then toString q.num else toString q.num ++ "/" ++ toString q.den
  | .arr _ => "<list>"
  | .obj _ => "<dict>"

/-- sep.join(parts), Python str.join. -/
def pyJoin (sep : String) : List String → String
  | [] => ""
  | [x] => x
  | x :: y :: t => x ++ sep ++ pyJoin sep (y :: t)

/-- Left zero-padding to width w (as Python zfill / format padding). -/
def zfill (s : String) (w : Nat) : String :=
  String.mk (List.replicate (w - s.length) '0') ++ s

/-- str.ljust: pad with spaces on the right up to width w. -/
def ljust (s : String) (w : Nat) : String :=
  s ++ String.mk (List.replicate (w - s.length) ' ')

/-- Round to the nearest integer, ties to the even integer: the rounding
CPython applies when formatting with a fixed number of decimals.  (It is
applied here to the exact rational instead of the nearest binary double.) -/
def roundHalfEven (q : Rat) : Int :=
  let f := ⌊q⌋
  let r := q - (f : Rat)
  if r < (1 : Rat) / 2 then f
  else if (1 : Rat) / 2 < r then f + 1
  else if f % 2 = 0 then f else f + 1

/-- Fixed-point rendering with prec decimals: the f-string conversion
x:.precf of the script. -/
def fmtFixed (q : Rat) (prec : Nat) : String :=
  let n : Int := roundHalfEven (q * ((10 : Rat) ^ prec))
  let na : Nat := n.natAbs
  let ip : Nat := na / 10 ^ prec
  let fp : Nat := na % 10 ^ prec
  let sign : String := if q < 0 then "-" else ""
  if prec = 0 then sign ++ toString ip
  else sign ++ toString ip ++ "." ++ zfill (toString fp) prec

/-- d.get(k): None for a missing key, AttributeError when the receiver is
not a dict. -/
def jsonGet (j : Json) (k : String) : Except PyErr Json :=
  match j with
  | .obj kvs => .ok ((kvs.lookup k).getD Json.null)
  | other => .error (.attributeError (jsonTypeName other ++ " object has no attribute get"))

/-- d.get(k, dflt). -/
def jsonGetD (j : Json) (k : String) (dflt : Json) : Except PyErr Json :=
  match j with
  | .obj kvs => .ok ((kvs.lookup k).getD dflt)
  | other => .error (.attributeError (jsonTypeName other ++ " object has no attribute get"))

/-- d[k] with a string key. -/
def jsonGetItem (j : Json) (k : String) : Except PyErr Json :=
  match j with
  | .obj kvs =>
    match kvs.lookup k with
    | some v => .ok v
    | none => .error (.keyError k)
  | .arr _ => .error (.typeError "list indices must be integers or slices, not str")
  | .str _ => .error (.typeError "string indices must be integers")
  | other => .error (.typeError (jsonTypeName other ++ " object is not subscriptable"))

/-- x[i] with a non-negative integer index. -/
def jsonIndexNat (j : Json) (i : Nat) : Except PyErr Json :=
  match j with
  | .arr l =>
    match l.get? i with
    | some v => .ok v
    | none => .error (.indexError "list index out of range")
  | .str s =>
    match s.data.get? i with
    | some c => .ok (Json.str (String.mk [c]))
    | none => .error (.indexError "string index out of range")
  | .obj _ => .error (.keyError (toString i))
  | other => .error (.typeError (jsonTypeName other ++ " object is not subscriptable"))

/-- len(x). -/
def pyLen (j : Json) : Except PyErr Nat :=
  match j with
  | .arr l => .ok l.length
  | .str s => .ok s.length
  | .obj kvs => .ok kvs.length
  | other => .error (.typeError ("object of type " ++ jsonTypeName other ++ " has no len()"))

/-- Equality of a Json value with a Python str (only strings compare equal
to strings). -/
def jsonEqStr (j : Json) (s : String) : Bool :=
  match j with
  | .str t => t == s
  | _ => false

/-- needle in hay for strings: substring containment. -/
def strContainsSub (hay needle : String) : Bool :=
  hay.data.tails.any (fun t => needle.data.isPrefixOf t)

/-- k in x: key membership for dicts, element equality for lists,
substring containment for strings; TypeError otherwise. -/
def jsonContains (j : Json) (k : String) : Except PyErr Bool :=
  match j with
  | .obj kvs => .ok (kvs.any (fun kv => kv.1 == k))
  | .arr l => .ok (l.any (fun e => jsonEqStr e k))
  | .str s => .ok (strContainsSub s k)
  | other => .error (.typeError ("argument of type " ++ jsonTypeName other ++ " is not iterable"))

/-- iter(x): list of the values Python iteration yields. -/
def toPyList (j : Json) : Except PyErr (List Json) :=
  match j with
  | .arr l => .ok l
  | .str s => .ok (s.data.map (fun c => Json.str (String.mk [c])))
  | .obj kvs => .ok (kvs.map (fun kv => Json.str kv.1))
  | other => .error (.typeError (jsonTypeName other ++ " object is not iterable"))

/-- Numeric value of a decimal digit list. -/
def digitsVal (cs : List Char) : Int :=
  cs.foldl (fun a c => a * 10 + ((c.toNat - 48 : Nat) : Int)) 0

/-- int(s) for a string.  CPython additionally strips whitespace and
allows underscores between digits; those forms never reach this script
from its own date strings and are not modelled. -/
def pyIntOfString (s : String) : Except PyErr Int :=
  let parse : List Char → Option Int := fun cs =>
    if cs.isEmpty then none
    else if cs.all Char.isDigit then some (digitsVal cs) else none
  let r : Option Int :=
    match s.data with
    | '-' :: rest => (parse rest).map (fun v => -v)
    | '+' :: rest => parse rest
    | rest => parse rest
  match r with
  | some v => .ok v
  | none => .error (.valueError ("invalid literal for int() with base 10: " ++ s))

/-- Truncation toward zero, the int() conversion applied to a float. -/
def ratTrunc (q : Rat) : Int :=
  if q < 0 then -(⌊-q⌋) else ⌊q⌋

/-- int(x) on a Json value. -/
def pyInt (j : Json) : Except PyErr Int :=
  match j with
  | .num q => .ok (ratTrunc q)
  | .bool b => .ok (if b then 1 else 0)
  | .str s => pyIntOfString s
  | other => .error (.typeError ("int() argument must be a string or a real number, not " ++ jsonTypeName other))

/-- Parse a plain decimal literal (optional sign, digits, optional
fractional part).  Exponent notation and inf/nan are not modelled. -/
def parseDecimal (s : String) : Option Rat :=
  let core : List Char → Option Rat := fun t =>
    match t.splitOn '.' with
    | [a] => if a.isEmpty then none
             else if a.all Char.isDigit then some ((digitsVal a : Int) : Rat) else none
    | [a, b] =>
      if a.isEmpty && b.isEmpty then none
      else if a.all Char.isDigit && b.all Char.isDigit then
        some (((digitsVal (a ++ b) : Int) : Rat) / ((10 : Rat) ^ b.length))
      else none
    | _ => none
  match s.data with
  | '-' :: rest => (core rest).map (fun q => -q)
  | '+' :: rest => core rest
  | rest => core rest

/-- float(x) on a Json value. -/
def pyFloat (j : Json) : Except PyErr Rat :=
  match j with
  | .num q => .ok q
  | .bool b => .ok (if b then 1 else 0)
  | .str s =>
    match parseDecimal s with
    | some q => .ok q
    | none => .error (.valueError ("could not convert string to float: " ++ s))
  | other => .error (.typeError ("float() argument must be a string or a real number, not " ++ jsonTypeName other))

/-- Geocoding endpoint (weather.py line 22). -/
def GEO_BASE : String := "https://geocoding-api.open-meteo.com/v1/search"

/-- Forecast endpoint (weather.py line 23). -/
def FORECAST_BASE : String := "https://api.open-meteo.com/v1/forecast"

/-- The static weather-code table WEATHER_CODE_MAP_JA (weather.py lines
26-55), as an association list in source order; the keys are pairwise
distinct, so association-list lookup agrees with the Python dict. -/
def WEATHER_CODE_MAP_JA : List (Int × String) :=
  [(0, "快晴"), (1, "ほぼ快晴"), (2, "晴れ時々くもり"), (3, "くもり"),
   (45, "霧"), (48, "着氷性霧"),
   (51, "霧雨(弱)"), (53, "霧雨(中)"), (55, "霧雨(強)"),
   (56, "着氷性霧雨(弱)"), (57, "着氷性霧雨(強)"),
   (61, "雨(弱)"), (63, "雨(中)"), (65, "雨(強)"),
   (66, "着氷性雨(弱)"), (67, "着氷性雨(強)"),
   (71, "雪(弱)"), (73, "雪(中)"), (75, "雪(強)"), (77, "雪あられ"),
   (80, "にわか雨(弱)"), (81, "にわか雨(中)"), (82, "にわか雨(強)"),
   (85, "にわか雪(弱)"), (86, "にわか雪(強)"),
   (95, "雷雨"), (96, "雷雨(弱いひょう)"), (99, "雷雨(強いひょう)")]

/-- WEATHER_CODE_MAP_JA.get(code, f-string 不明(code)): weather.py line 136. -/
def weather_desc (code : Int) : String :=
  (WEATHER_CODE_MAP_JA.lookup code).getD ("不明(" ++ toString code ++ ")")

/-- urllib.parse.urlencode, without percent-escaping (no claim inspects
the escaped form). -/
def urlencode (params : List (String × String)) : String :=
  pyJoin "&" (params.map (fun kv => kv.1 ++ "=" ++ kv.2))

/-- The URL http_get requests: the base, plus a query string when params
is non-empty (weather.py lines 58-59). -/
def full_url (url : String) (params : List (String × String)) : String :=
  if params.isEmpty then url else url ++ "?" ++ urlencode params

/-- http_get (weather.py lines 57-64): issue one GET request, raise
RuntimeError on a status other than 200, otherwise return the JSON-parsed
body (json.loads raises on a body that is not valid JSON, modelled by
body = none). -/
def http_get (url : String) (params : List (String × String)) (resp : HttpResponse) :
    List Event × Except PyErr Json :=
  ([Event.request url params],
   if resp.status ≠ 200 then
     Except.error (PyErr.runtimeError ("HTTP " ++ toString resp.status ++ " for " ++ full_url url params))
   else
     match resp.body with
     | some j => Except.ok j
     | none => Except.error PyErr.jsonDecodeError)

/-- Query parameters of the geocoding request (weather.py line 69). -/
def geo_params (city lang : String) (count : Int) : List (String × String) :=
  [("name", city), ("count", toString count), ("language", lang), ("format", "json")]

/-- geocode (weather.py lines 66-74): one geocoding request; the value of
the results field, with any falsy value replaced by the empty list; a
ValueError naming the city when that list is empty; otherwise the first
element. -/
def geocode (city lang : String) (count : Int) (resp : HttpResponse) :
    List Event × Except PyErr Json :=
  let pr := http_get GEO_BASE (geo_params city lang count) resp
  (pr.1, do
    let data ← pr.2
    let rv ← jsonGet data "results"
    let results := if pyTruthy rv then rv else Json.arr []
    if pyTruthy results then jsonIndexNat results 0
    else Except.error (PyErr.valueError ("場所が見つかりませんでした: " ++ city)))

/-- The daily parameter of the forecast request (weather.py lines 77-82). -/
def daily_params : String :=
  pyJoin "," ["weather_code", "temperature_2m_max", "temperature_2m_min",
              "precipitation_probability_max"]

/-- Query parameters of the forecast request (weather.py lines 85-91):
coordinates rendered to five decimals, the timezone, str(days) as
forecast_days, and the daily variable list. -/
def forecast_params (lat lon : Rat) (days : Int) (tz : String) : List (String × String) :=
  [("latitude", fmtFixed lat 5), ("longitude", fmtFixed lon 5), ("timezone", tz),
   ("forecast_days", toString days), ("daily", daily_params)]

/-- fetch_forecast (weather.py lines 76-95): one forecast request;
RuntimeError when the response carries no daily member; otherwise the
whole response object. -/
def fetch_forecast (lat lon : Rat) (days : Int) (tz : String) (resp : HttpResponse) :
    List Event × Except PyErr Json :=
  let pr := http_get FORECAST_BASE (forecast_params lat lon days tz) resp
  (pr.1, do
    let data ← pr.2
    let hasDaily ← jsonContains data "daily"
    if hasDaily then pure data
    else Except.error (PyErr.runtimeError "予報データの取得に失敗しました。"))

/-- The heads of a family of lists: some list of first elements when
every list is non-empty, none otherwise. -/
def headsOf : List (List α) → Option (List α)
  | [] => some []
  | [] :: _ => none
  | (x :: _) :: rest => (headsOf rest).map (fun hds => x :: hds)

/-- One step of Python zip(*(first :: rest)): stop as soon as any list is
exhausted, otherwise take all heads and continue on the tails. -/
def pyZipGo (first : List α) (rest : List (List α)) : List (List α) :=
  match first, headsOf rest with
  | [], _ => []
  | _ :: _, none => []
  | x :: xs, some hds => (x :: hds) :: pyZipGo xs (rest.map List.tail)

/-- list(zip(*xss)) (weather.py line 99). -/
def pyZip : List (List α) → List (List α)
  | [] => []
  | first :: rest => pyZipGo first rest

/-- Width of one column: the maximum cell length (weather.py line 100;
the cells are strings already, so str(x) is the identity; the 0 seed is
never the maximum because zip produces no empty column). -/
def col_width (col : List String) : Nat :=
  (col.map String.length).foldl Nat.max 0

/-- The column widths of the table (weather.py lines 99-100). -/
def widths_of (rows : List (List String)) (headers : List String) : List Nat :=
  (pyZip (headers :: rows)).map col_width

/-- line(parts) (weather.py line 101): each part left-justified to its
column width, joined by the cell separator. -/
def table_line (widths : List Nat) (parts : List String) : String :=
  pyJoin " | " ((parts.zip widths).map (fun pw => ljust pw.1 pw.2))

/-- The separator line (weather.py line 102). -/
def sep_line (widths : List Nat) : String :=
  pyJoin "-+-" (widths.map (fun w => String.mk (List.replicate w '-')))

/-- The out list of fmt_table (weather.py lines 103-104): header line,
separator, then one line per row. -/
def table_lines (rows : List (List String)) (headers : List String) : List String :=
  table_line (widths_of rows headers) headers ::
    sep_line (widths_of rows headers) ::
    rows.map (table_line (widths_of rows headers))

/-- fmt_table (weather.py lines 97-105). -/
def fmt_table (rows : List (List String)) (headers : List String) : String :=
  pyJoin "\n" (table_lines rows headers)

/-- Gregorian leap-year rule, as datetime uses it. -/
def is_leap (y : Int) : Bool :=
  (y % 4 == 0 && !(y % 100 == 0)) || y % 400 == 0

/-- Days in a month of the proleptic Gregorian calendar. -/
def days_in_month (y m : Int) : Int :=
  if m == 2 then (if is_leap y then 29 else 28)
  else if m == 4 || m == 6 || m == 9 || m == 11 then 30
  else 31

/-- The validation datetime.date(y, m, d) performs, with its ValueError
messages. -/
def date_check (y m d : Int) : Except PyErr Unit :=
  if y < 1 || 9999 < y then .error (.valueError ("year " ++ toString y ++ " is out of range"))
  else if m < 1 || 12 < m then .error (.valueError "month must be in 1..12")
  else if d < 1 || days_in_month y m < d then .error (.valueError "day is out of range for month")
  else .ok ()

/-- Day of week of a valid Gregorian date, 0 = Sunday (Sakamoto's
congruence; every intermediate quantity is non-negative for y ≥ 1). -/
def weekday_sun0 (y m d : Int) : Int :=
  let y2 := if m < 3 then y - 1 else y
  let t : List Int := [0, 3, 2, 5, 0, 3, 5, 1, 4, 6, 2, 4]
  (y2 + y2 / 4 - y2 / 100 + y2 / 400 + t.getD (m - 1).toNat 0 + d) % 7

/-- The abbreviated day names strftime %a produces in the C locale. -/
def day_abbrev (y m d : Int) : String :=
  ["Sun", "Mon", "Tue", "Wed", "Thu", "Fri", "Sat"].getD (weekday_sun0 y m d).toNat ""

/-- dt.date(y, m, d).strftime of Y-m-d (a): validate the date, then
render it zero-padded with the weekday abbreviation (weather.py line 142). -/
def strftime_label (y m d : Int) : Except PyErr String := do
  let _ ← date_check y m d
  pure (zfill (toString y) 4 ++ "-" ++ zfill (toString m) 2 ++ "-" ++ zfill (toString d) 2
        ++ " (" ++ day_abbrev y m d ++ ")")

/-- y, m, d = map(int, parts) (weather.py line 141): the lazy map
iterator converts values as unpacking consumes them, so a conversion
error in an early part (or in the fourth part of an over-long list)
precedes the unpack ValueError. -/
def unpack3Ints (parts : List String) : Except PyErr (Int × Int × Int) :=
  match parts with
  | [] => .error (.valueError "not enough values to unpack (expected 3, got 0)")
  | [a] => do
    let _ ← pyIntOfString a
    .error (.valueError "not enough values to unpack (expected 3, got 1)")
  | [a, b] => do
    let _ ← pyIntOfString a
    let _ ← pyIntOfString b
    .error (.valueError "not enough values to unpack (expected 3, got 2)")
  | [a, b, c] => do
    let ia ← pyIntOfString a
    let ib ← pyIntOfString b
    let ic ← pyIntOfString c
    pure (ia, ib, ic)
  | a :: b :: c :: d :: _ => do
    let _ ← pyIntOfString a
    let _ ← pyIntOfString b
    let _ ← pyIntOfString c
    let _ ← pyIntOfString d
    .error (.valueError "too many values to unpack (expected 3)")

/-- date_str.split with a one-character separator: AttributeError unless
the receiver is a str. -/
def pySplitDash (j : Json) : Except PyErr (List String) :=
  match j with
  | .str s => .ok (s.splitOn "-")
  | other => .error (.attributeError (jsonTypeName other ++ " object has no attribute split"))

/-- The x:.1f conversion of an f-string on a Json operand. -/
def pyFmtF (j : Json) (prec : Nat) : Except PyErr String :=
  match j with
  | .num q => .ok (fmtFixed q prec)
  | .bool b => .ok (fmtFixed (if b then 1 else 0) prec)
  | other => .error (.typeError ("unsupported format string passed to " ++ jsonTypeName other))

/-- One iteration of the row loop (weather.py lines 134-149), for index i
and loop variable date_str, in source evaluation order. -/
def build_row (daily : Json) (i : Nat) (date_str : Json) : Except PyErr (List String) := do
  let codeJ ← jsonIndexNat (← jsonGetItem daily "weather_code") i
  let code ← pyInt codeJ
  let wdesc := weather_desc code
  let tmax ← jsonIndexNat (← jsonGetItem daily "temperature_2m_max") i
  let tmin ← jsonIndexNat (← jsonGetItem daily "temperature_2m_min") i
  let n ← pyLen (← jsonGetItem daily "time")
  let pop ← jsonIndexNat (← jsonGetD daily "precipitation_probability_max"
                            (Json.arr (List.replicate n Json.null))) i
  let parts ← pySplitDash date_str
  let (y, m, d) ← unpack3Ints parts
  let lbl ← strftime_label y m d
  let tminS ← pyFmtF tmin 1
  let tmaxS ← pyFmtF tmax 1
  let popS := match pop with
    | Json.null => "-"
    | p => pyStr p ++ "%"
  pure [lbl, wdesc, tminS ++ "°C", tmaxS ++ "°C", popS]

/-- The whole row loop: iterate over daily of time with enumerate
(weather.py lines 133-149); the first raising iteration aborts the loop. -/
def build_rows (daily : Json) : Except PyErr (List (List String)) := do
  let items ← toPyList (← jsonGetItem daily "time")
  items.enum.mapM (fun p => build_row daily p.1 p.2)

/-- The table headers (weather.py line 151). -/
def headers_ja : List String := ["日付", "天気", "最低気温", "最高気温", "降水確率(最大)"]

/-- Coordinate extraction and the location label (weather.py lines
125-128): float conversions of latitude and longitude, then the label
from name, admin1 (when truthy) and country_code. -/
def locate (g : Json) : Except PyErr (Rat × Rat × String) := do
  let lat ← pyFloat (← jsonGetItem g "latitude")
  let lon ← pyFloat (← jsonGetItem g "longitude")
  let name ← jsonGet g "name"
  let cc ← jsonGet g "country_code"
  let adm ← jsonGet g "admin1"
  let lbl :=
    if pyTruthy adm then pyStr name ++ ", " ++ pyStr adm ++ " (" ++ pyStr cc ++ ")"
    else pyStr name ++ " (" ++ pyStr cc ++ ")"
  pure (lat, lon, lbl)

/-- The location line printed first (weather.py line 152). -/
def loc_line (lbl : String) (lat lon : Rat) (tz : String) : String :=
  "場所: " ++ lbl ++ "  [lat=" ++ fmtFixed lat 3 ++ ", lon=" ++ fmtFixed lon 3 ++ "]  / TZ=" ++ tz

/-- data of daily, then the rows (weather.py lines 131-149). -/
def forecast_rows (data : Json) : Except PyErr (List (List String)) := do
  let daily ← jsonGetItem data "daily"
  build_rows daily

/-- The parsed CLI flags (weather.py lines 117-121); argparse itself is
out of scope of every claim. -/
structure Args where
  city : String
  days : Int
  lang : String
  tz : String

/-- The try block of main (weather.py lines 123-153): the trace of
requests and stdout prints performed before returning or raising, and
the outcome. -/
def try_body (args : Args) (gResp fResp : HttpResponse) : List Event × Except PyErr Unit :=
  let ev1 := (geocode args.city args.lang 1 gResp).1
  match (geocode args.city args.lang 1 gResp).2 with
  | .error e => (ev1, .error e)
  | .ok g =>
    match locate g with
    | .error e => (ev1, .error e)
    | .ok (lat, lon, lbl) =>
      let ev2 := (fetch_forecast lat lon args.days args.tz fResp).1
      match (fetch_forecast lat lon args.days args.tz fResp).2 with
      | .error e => (ev1 ++ ev2, .error e)
      | .ok data =>
        match forecast_rows data with
        | .error e => (ev1 ++ ev2, .error e)
        | .ok rows =>
          (ev1 ++ ev2 ++ [Event.out (loc_line lbl lat lon args.tz),
                          Event.out (fmt_table rows headers_ja)], .ok ())

/-- main (weather.py lines 107-157): run the try block; on an exception
print the error line to stderr and exit with status 1, otherwise fall off
normally.  The function is pure: one invocation sees nothing but its
flags and the two HTTP responses. -/
def main (args : Args) (gResp fResp : HttpResponse) : List Event :=
  match try_body args gResp fResp with
  | (ev, .ok _) => ev
  | (ev, .error e) => ev ++ [Event.err ("エラー: " ++ pyErrStr e), Event.exit 1]

/-- Two independent invocations of the script. -/
def run_twice (a1 : Args) (g1 f1 : HttpResponse) (a2 : Args) (g2 f2 : HttpResponse) :
    List Event × List Event :=
  (main a1 g1 f1, main a2 g2 f2)

/-- The stdout lines of a trace. -/
def outs (tr : List Event) : List String :=
  tr.filterMap (fun e => match e with | .out s => some s | _ => none)

/-- The stderr lines of a trace. -/
def errs (tr : List Event) : List String :=
  tr.filterMap (fun e => match e with | .err s => some s | _ => none)

/-- The exit codes of a trace (empty = the process fell off main). -/
def exits (tr : List Event) : List Nat :=
  tr.filterMap (fun e => match e with | .exit c => some c | _ => none)

/-- Is this event a request to the geocoding service? -/
def is_geo_request (e : Event) : Bool :=
  match e with
  | .request b _ => b == GEO_BASE
  | _ => false

/-- Is this event a request to the forecast service? -/
def is_fc_request (e : Event) : Bool :=
  match e with
  | .request b _ => b == FORECAST_BASE
  | _ => false

/-- Pipeline stage of an event: geocoding request, forecast request,
stdout print, error handling.  A trace sorted by stage follows the
fixed order of the pipeline. -/
def eventRank (e : Event) : Nat :=
  match e with
  | .request b _ => if b == GEO_BASE then 0 else 1
  | .out _ => 2
  | .err _ => 3
  | .exit _ => 3

/-! Helper lemmas. -/

/-- Sequencing after a successful step runs the continuation. -/
@[simp] lemma exc_bind_ok {α β : Type} (v : α) (f : α → Except PyErr β) :
    (do let x ← (Except.ok v : Except PyErr α); f x) = f v := rfl

/-- Sequencing after a raising step propagates the exception. -/
@[simp] lemma exc_bind_error {α β : Type} (e : PyErr) (f : α → Except PyErr β) :
    (do let x ← (Except.error e : Except PyErr α); f x) = Except.error e := rfl

/-- Association-list lookup misses every key that is not in the key list. -/
lemma lookup_eq_none_of_not_mem_keys {β : Type} :
    ∀ (l : List (Int × β)) (a : Int), a ∉ l.map Prod.fst → l.lookup a = none := by
  intro l
  induction l with
  | nil => intro a _; rfl
  | cons kv t ih =>
    intro a h
    obtain ⟨k, v⟩ := kv
    simp only [List.map_cons, List.mem_cons, not_or] at h
    rw [List.lookup_cons, beq_eq_false_iff_ne.mpr h.1]
    exact ih a h.2

/-! ## C2: http_get -/

/-- C2 (amended): http_get raises exactly when the response status is not
200 (the only status the source accepts) or the response body is not
valid JSON; when the status is 200 and the body parses, it returns the
parsed JSON body. -/
theorem http_get_result (url : String) (params : List (String × String)) (resp : HttpResponse) :
    ((∃ e, (http_get url params resp).2 = Except.error e) ↔
      (resp.status ≠ 200 ∨ resp.body = none)) ∧
    (∀ b, resp.status = 200 → resp.body = some b →
      (http_get url params resp).2 = Except.ok b) := by
  obtain ⟨st, body⟩ := resp
  constructor
  · by_cases h : st = 200
    · subst h
      cases body <;> simp [http_get]
    · simp [http_get, h]
  · intro b hs hb
    simp only at hs hb
    subst hs
    subst hb
    simp [http_get]

/-- Witness for C2: a status-200 response with a well-formed body is
returned as parsed. -/
theorem http_get_result_witness :
    (http_get GEO_BASE [] ⟨200, some (Json.obj [])⟩).2 = Except.ok (Json.obj []) :=
  (http_get_result GEO_BASE [] ⟨200, some (Json.obj [])⟩).2 (Json.obj []) rfl rfl

/-- Counterexample to C2 as stated: a response whose status is the
success status 200 but whose body is not valid JSON still makes http_get
raise (json.loads fails), so raising is not equivalent to a non-success
status. -/
theorem http_get_claim_counterexample :
    ¬ ((∃ e, (http_get GEO_BASE [] ⟨200, none⟩).2 = Except.error e) ↔
       (HttpResponse.mk 200 none).status ≠ 200) := by
  intro h
  exact (h.mp ⟨PyErr.jsonDecodeError, rfl⟩) rfl

/-! ## C1: geocode returns the first result -/

/-- C1: whenever the geocoding response parses to an object whose results
field is a non-empty list, geocode returns the element at index 0 of that
list unchanged. -/
theorem geocode_first_result (city lang : String) (count : Int) (resp : HttpResponse)
    (kvs : List (String × Json)) (x : Json) (xs : List Json)
    (hs : resp.status = 200) (hb : resp.body = some (Json.obj kvs))
    (hr : kvs.lookup "results" = some (Json.arr (x :: xs))) :
    (geocode city lang count resp).2 = Except.ok x := by
  obtain ⟨st, body⟩ := resp
  simp only at hs hb
  subst hs
  subst hb
  simp [geocode, http_get, jsonGet, hr, pyTruthy, jsonIndexNat]

/-- Witness for C1 at a concrete one-element results list. -/
theorem geocode_first_result_witness :
    ([(("results" : String), Json.arr [Json.num 1])].lookup "results"
        = some (Json.arr [Json.num 1])) ∧
    (geocode "Tokyo" "ja" 1 ⟨200, some (Json.obj [("results", Json.arr [Json.num 1])])⟩).2
      = Except.ok (Json.num 1) :=
  ⟨rfl, geocode_first_result "Tokyo" "ja" 1 _ _ (Json.num 1) [] rfl rfl rfl⟩

/-! ## C8: geocode on an absent, null or empty results field -/

/-- C8: when the parsed geocoding response is an object whose results
field is absent, null, or the empty list, geocode raises a ValueError
whose message contains the queried city name (so no location record is
returned). -/
theorem geocode_empty_results (city lang : String) (count : Int) (resp : HttpResponse)
    (kvs : List (String × Json))
    (hs : resp.status = 200) (hb : resp.body = some (Json.obj kvs))
    (hr : kvs.lookup "results" = none ∨ kvs.lookup "results" = some Json.null ∨
          kvs.lookup "results" = some (Json.arr [])) :
    ∃ pre post, (geocode city lang count resp).2
      = Except.error (PyErr.valueError (pre ++ city ++ post)) := by
  refine ⟨"場所が見つかりませんでした: ", "", ?_⟩
  obtain ⟨st, body⟩ := resp
  simp only at hs hb
  subst hs
  subst hb
  rw [String.append_empty]
  rcases hr with h | h | h <;>
    simp [geocode, http_get, jsonGet, h, pyTruthy]

/-- Witness for C8: an object without a results field. -/
theorem geocode_empty_results_witness :
    (([] : List (String × Json)).lookup "results" = none) ∧
    ∃ pre post, (geocode "Atlantis" "ja" 1 ⟨200, some (Json.obj [])⟩).2
      = Except.error (PyErr.valueError (pre ++ "Atlantis" ++ post)) :=
  ⟨rfl, geocode_empty_results "Atlantis" "ja" 1 _ [] rfl rfl (Or.inl rfl)⟩

/-! ## C5: the forecast request parameters -/

/-- C5: every call of fetch_forecast issues exactly one GET request, to
the forecast endpoint, and its query parameters carry the latitude
(rendered to five decimals, as the source formats it), the longitude
(likewise), the day count as forecast_days, and the timezone. -/
theorem fetch_forecast_request (lat lon : Rat) (days : Int) (tz : String) (resp : HttpResponse) :
    (fetch_forecast lat lon days tz resp).1
      = [Event.request FORECAST_BASE (forecast_params lat lon days tz)] ∧
    ("latitude", fmtFixed lat 5) ∈ forecast_params lat lon days tz ∧
    ("longitude", fmtFixed lon 5) ∈ forecast_params lat lon days tz ∧
    ("forecast_days", toString days) ∈ forecast_params lat lon days tz ∧
    ("timezone", tz) ∈ forecast_params lat lon days tz := by
  refine ⟨rfl, ?_, ?_, ?_, ?_⟩ <;> simp [forecast_params]

/-! ## C6: the weather-code table -/

/-- C6: for every numeric code that is a key of WEATHER_CODE_MAP_JA, the
rendered description is exactly the string the table pairs with that
code.  weather_desc is a function of the code alone, so the same code
always yields the same description. -/
theorem weather_code_lookup (code : Int) (s : String)
    (h : (code, s) ∈ WEATHER_CODE_MAP_JA) : weather_desc code = s := by
  simp only [WEATHER_CODE_MAP_JA, List.mem_cons, List.not_mem_nil, or_false,
    Prod.mk.injEq] at h
  rcases h with h|h|h|h|h|h|h|h|h|h|h|h|h|h|h|h|h|h|h|h|h|h|h|h|h|h|h|h <;>
    (obtain ⟨rfl, rfl⟩ := h; rfl)

/-- Witness for C6 at the first table entry. -/
theorem weather_code_lookup_witness :
    ((0 : Int), "快晴") ∈ WEATHER_CODE_MAP_JA ∧ weather_desc 0 = "快晴" :=
  ⟨List.mem_cons_self _ _, weather_code_lookup 0 "快晴" (List.mem_cons_self _ _)⟩

/-! ## C10: the fallback description -/

/-- C10: for every integer code that is not a key of the table, the
description falls back to 不明(code) containing the numeric code, so
translation is total on the integers. -/
theorem weather_code_fallback (code : Int)
    (h : code ∉ WEATHER_CODE_MAP_JA.map Prod.fst) :
    weather_desc code = "不明(" ++ toString code ++ ")" := by
  unfold weather_desc
  rw [lookup_eq_none_of_not_mem_keys WEATHER_CODE_MAP_JA code h]
  rfl

/-- Witness for C10 at the unlisted code 4. -/
theorem weather_code_fallback_witness :
    ((4 : Int) ∉ WEATHER_CODE_MAP_JA.map Prod.fst) ∧ weather_desc 4 = "不明(4)" :=
  ⟨by decide, weather_code_fallback 4 (by decide)⟩

/-! ## The shapes a run of main can take -/

/-- A geocoding request never tests as a forecast request. -/
@[simp] lemma is_fc_request_geo (ps : List (String × String)) :
    is_fc_request (Event.request GEO_BASE ps) = false := by
  simp only [is_fc_request]
  decide

/-- A forecast request never tests as a geocoding request. -/
@[simp] lemma is_geo_request_fc (ps : List (String × String)) :
    is_geo_request (Event.request FORECAST_BASE ps) = false := by
  simp only [is_geo_request]
  decide

/-- A geocoding request tests as one. -/
@[simp] lemma is_geo_request_geo (ps : List (String × String)) :
    is_geo_request (Event.request GEO_BASE ps) = true := by
  simp [is_geo_request]

/-- A forecast request tests as one. -/
@[simp] lemma is_fc_request_fc (ps : List (String × String)) :
    is_fc_request (Event.request FORECAST_BASE ps) = true := by
  simp [is_fc_request]

/-- The stage of a geocoding request. -/
@[simp] lemma eventRank_geo (ps : List (String × String)) :
    eventRank (Event.request GEO_BASE ps) = 0 := by
  simp [eventRank]

/-- The stage of a forecast request. -/
@[simp] lemma eventRank_fc (ps : List (String × String)) :
    eventRank (Event.request FORECAST_BASE ps) = 1 := by
  simp only [eventRank]
  decide

/-- geocode always issues exactly its one geocoding request. -/
@[simp] lemma geocode_events (city lang : String) (count : Int) (resp : HttpResponse) :
    (geocode city lang count resp).1
      = [Event.request GEO_BASE (geo_params city lang count)] := rfl

/-- fetch_forecast always issues exactly its one forecast request. -/
@[simp] lemma fetch_forecast_events (lat lon : Rat) (days : Int) (tz : String)
    (resp : HttpResponse) :
    (fetch_forecast lat lon days tz resp).1
      = [Event.request FORECAST_BASE (forecast_params lat lon days tz)] := rfl

/-- Every run of main is one of three traces: the geocoding request
followed by error handling; both requests followed by error handling; or
both requests followed by the two stdout prints of a successful run. -/
lemma main_cases (args : Args) (gR fR : HttpResponse) :
    (∃ e, (try_body args gR fR).2 = Except.error e ∧
       main args gR fR
         = [Event.request GEO_BASE (geo_params args.city args.lang 1),
            Event.err ("エラー: " ++ pyErrStr e), Event.exit 1]) ∨
    (∃ e lat lon, (try_body args gR fR).2 = Except.error e ∧
       main args gR fR
         = [Event.request GEO_BASE (geo_params args.city args.lang 1),
            Event.request FORECAST_BASE (forecast_params lat lon args.days args.tz),
            Event.err ("エラー: " ++ pyErrStr e), Event.exit 1]) ∨
    (∃ g lat lon lbl data rows,
       (try_body args gR fR).2 = Except.ok () ∧
       (geocode args.city args.lang 1 gR).2 = Except.ok g ∧
       locate g = Except.ok (lat, lon, lbl) ∧
       (fetch_forecast lat lon args.days args.tz fR).2 = Except.ok data ∧
       forecast_rows data = Except.ok rows ∧
       main args gR fR
         = [Event.request GEO_BASE (geo_params args.city args.lang 1),
            Event.request FORECAST_BASE (forecast_params lat lon args.days args.tz),
            Event.out (loc_line lbl lat lon args.tz),
            Event.out (fmt_table rows headers_ja)]) := by
  cases hg : (geocode args.city args.lang 1 gR).2 with
  | error e =>
    left
    exact ⟨e, by simp [try_body, hg],
      by simp [main, try_body, hg]⟩
  | ok g =>
    cases hl : locate g with
    | error e =>
      left
      exact ⟨e, by simp [try_body, hg, hl],
        by simp [main, try_body, hg, hl]⟩
    | ok triple =>
      obtain ⟨lat, lon, lbl⟩ := triple
      cases hf : (fetch_forecast lat lon args.days args.tz fR).2 with
      | error e =>
        right; left
        exact ⟨e, lat, lon, by simp [try_body, hg, hl, hf],
          by simp [main, try_body, hg, hl, hf]⟩
      | ok data =>
        cases hr : forecast_rows data with
        | error e =>
          right; left
          exact ⟨e, lat, lon, by simp [try_body, hg, hl, hf, hr],
            by simp [main, try_body, hg, hl, hf, hr]⟩
        | ok rows =>
          right; right
          exact ⟨g, lat, lon, lbl, data, rows, by simp [try_body, hg, hl, hf, hr], rfl, hl, hf, hr,
            by simp [main, try_body, hg, hl, hf, hr]⟩

/-! ## C3: top-level error handling -/

/-- C3: either some step of the try block raises, and then main prints
exactly one error line to stderr and exits with status 1; or no step
raises, and then main prints the location line followed by the formatted
table to stdout, prints nothing to stderr, and terminates without
calling sys.exit. -/
theorem main_pipeline_outcome (args : Args) (gR fR : HttpResponse) :
    (∃ e, (try_body args gR fR).2 = Except.error e ∧
       errs (main args gR fR) = ["エラー: " ++ pyErrStr e] ∧
       exits (main args gR fR) = [1]) ∨
    ((try_body args gR fR).2 = Except.ok () ∧
     ∃ g lat lon lbl data rows,
       (geocode args.city args.lang 1 gR).2 = Except.ok g ∧
       locate g = Except.ok (lat, lon, lbl) ∧
       (fetch_forecast lat lon args.days args.tz fR).2 = Except.ok data ∧
       forecast_rows data = Except.ok rows ∧
       outs (main args gR fR) = [loc_line lbl lat lon args.tz, fmt_table rows headers_ja] ∧
       errs (main args gR fR) = [] ∧
       exits (main args gR fR) = []) := by
  rcases main_cases args gR fR with ⟨e, htb, hm⟩ | ⟨e, lat, lon, htb, hm⟩ |
    ⟨g, lat, lon, lbl, data, rows, htb, hg, hl, hf, hr, hm⟩
  · exact Or.inl ⟨e, htb, by simp [errs, hm], by simp [exits, hm]⟩
  · exact Or.inl ⟨e, htb, by simp [errs, hm], by simp [exits, hm]⟩
  · exact Or.inr ⟨htb, g, lat, lon, lbl, data, rows, hg, hl, hf, hr,
      by simp [outs, hm], by simp [errs, hm], by simp [exits, hm]⟩

/-! ## C7: single pass, single requests, no cross-invocation state -/

/-- C7: every invocation starts with the geocoding request, issues at
most one request to each of the two services (so never retries), and its
trace is sorted by pipeline stage (geocode, then forecast, then the
prints): the steps run in the fixed order.  The last conjunct records
statelessness: in a pair of invocations the second behaves exactly as it
does in isolation, since main is a pure function of its own flags and
responses. -/
theorem main_single_pass (args : Args) (gR fR : HttpResponse) :
    (main args gR fR).head? = some (Event.request GEO_BASE (geo_params args.city args.lang 1)) ∧
    (main args gR fR).countP is_geo_request ≤ 1 ∧
    (main args gR fR).countP is_fc_request ≤ 1 ∧
    ((main args gR fR).map eventRank).Sorted (· ≤ ·) ∧
    (∀ a2 g2 f2, (run_twice args gR fR a2 g2 f2).2 = main a2 g2 f2) := by
  rcases main_cases args gR fR with ⟨e, _, hm⟩ | ⟨e, lat, lon, _, hm⟩ |
    ⟨g, lat, lon, lbl, data, rows, _, _, _, _, _, hm⟩ <;>
    refine ⟨by simp [hm], ?_, ?_, ?_, fun a2 g2 f2 => rfl⟩ <;>
    simp [hm, List.countP_cons, is_geo_request, is_fc_request, eventRank] <;>
    decide

/-! ## The table formatter: column structure -/

/-- getD at index 0 is the head with default. -/
lemma getD_zero {α : Type} (d : α) (l : List α) : l.getD 0 d = l.headD d := by
  cases l <;> rfl

/-- getD at a successor index moves to the tail. -/
lemma getD_succ {α : Type} (d : α) (l : List α) (i : Nat) :
    l.getD (i + 1) d = l.tail.getD i d := by
  cases l <;> rfl

/-- When every list of the family is non-empty, headsOf returns all the
heads. -/
lemma headsOf_of_ne_nil {α : Type} (d : α) :
    ∀ (rest : List (List α)), (∀ l ∈ rest, l ≠ []) →
      headsOf rest = some (rest.map (fun l => l.headD d)) := by
  intro rest
  induction rest with
  | nil => intro _; rfl
  | cons l t ih =>
    intro h
    cases l with
    | nil => exact absurd rfl (h [] (List.mem_cons_self _ _))
    | cons x xs =>
      simp [headsOf, ih (fun l hl => h l (List.mem_cons_of_mem _ hl))]

/-- The column decomposition of zip: on a rectangular family of lists of
common length n, pyZipGo produces, for each i < n, the list of the i-th
entries. -/
lemma pyZipGo_spec {α : Type} (d : α) :
    ∀ (n : Nat) (first : List α) (rest : List (List α)),
      first.length = n → (∀ l ∈ rest, l.length = n) →
      pyZipGo first rest
        = (List.range n).map (fun i => first.getD i d :: rest.map (fun l => l.getD i d)) := by
  intro n
  induction n with
  | zero =>
    intro first rest h1 _
    rw [List.length_eq_zero.mp h1]
    rfl
  | succ n ih =>
    intro first rest h1 h2
    cases first with
    | nil => simp at h1
    | cons x xs =>
      have hne : ∀ l ∈ rest, l ≠ [] := by
        intro l hl hnil
        have := h2 l hl
        rw [hnil] at this
        simp at this
      have htails : ∀ l ∈ rest.map List.tail, l.length = n := by
        intro l hl
        obtain ⟨l0, hl0, rfl⟩ := List.mem_map.mp hl
        have hlen := h2 l0 hl0
        cases l0 with
        | nil => simp at hlen
        | cons a t => simpa using hlen
      have step : pyZipGo (x :: xs) rest
          = (x :: rest.map (fun l => l.headD d)) :: pyZipGo xs (rest.map List.tail) := by
        rw [pyZipGo.eq_def, headsOf_of_ne_nil d rest hne]
      rw [step, ih xs (rest.map List.tail) (by simpa using h1) htails,
        List.range_succ_eq_map, List.map_cons, List.map_map]
      congr 1
      · rw [List.getD_cons_zero]
        congr 1
        exact List.map_congr_left (fun l _ => (getD_zero d l).symm)
      · apply List.map_congr_left
        intro i _
        simp only [Function.comp_apply, List.getD_cons_succ, List.map_map]
        congr 1
        exact List.map_congr_left (fun l _ => (getD_succ d l i).symm)

/-- Folding max from the left out of an accumulator. -/
lemma foldl_max_eq (a : Nat) (l : List Nat) :
    l.foldl Nat.max a = Nat.max a (l.foldr Nat.max 0) := by
  induction l generalizing a with
  | nil => simp
  | cons x t ih =>
    rw [List.foldl_cons, List.foldr_cons, ih]
    exact Nat.max_assoc a x _

/-- The width of a non-empty column is the maximum of the head length and
the remaining lengths. -/
lemma col_width_cons (x : String) (l : List String) :
    col_width (x :: l) = Nat.max x.length ((l.map String.length).foldr Nat.max 0) := by
  rw [col_width, List.map_cons, List.foldl_cons, foldl_max_eq]
  exact congrArg (fun z => Nat.max z ((l.map String.length).foldr Nat.max 0))
    (Nat.max_eq_right (Nat.zero_le _))

/-- Under the rectangularity hypothesis the computed widths are, per
index, the maximum of the header-cell length and the row-cell lengths of
that column. -/
lemma widths_of_spec (headers : List String) (rows : List (List String))
    (hrect : ∀ r ∈ rows, r.length = headers.length) :
    widths_of rows headers = (List.range headers.length).map
      (fun i => Nat.max (headers.getD i "").length
        ((rows.map (fun r => (r.getD i "").length)).foldr Nat.max 0)) := by
  have hz : widths_of rows headers = (pyZipGo headers rows).map col_width := rfl
  rw [hz, pyZipGo_spec "" headers.length headers rows rfl hrect, List.map_map]
  apply List.map_congr_left
  intro i _
  simp only [Function.comp_apply]
  rw [col_width_cons, List.map_map]
  rfl

/-- The widths list has one entry per header. -/
lemma widths_of_length (headers : List String) (rows : List (List String))
    (hrect : ∀ r ∈ rows, r.length = headers.length) :
    (widths_of rows headers).length = headers.length := by
  rw [widths_of_spec headers rows hrect]
  simp

/-- The value of the width at a valid column index. -/
lemma widths_of_getD (headers : List String) (rows : List (List String))
    (hrect : ∀ r ∈ rows, r.length = headers.length) (i : Nat) (hi : i < headers.length) :
    (widths_of rows headers).getD i 0
      = Nat.max (headers.getD i "").length
          ((rows.map (fun r => (r.getD i "").length)).foldr Nat.max 0) := by
  rw [widths_of_spec headers rows hrect]
  have hlen : i < ((List.range headers.length).map
      (fun i => Nat.max (headers.getD i "").length
        ((rows.map (fun r => (r.getD i "").length)).foldr Nat.max 0))).length := by
    simpa using hi
  rw [List.getD_eq_getElem _ _ hlen, List.getElem_map, List.getElem_range]

/-- Every member of a list is at most its right max-fold. -/
lemma le_foldr_max (a : Nat) (l : List Nat) (h : a ∈ l) : a ≤ l.foldr Nat.max 0 := by
  induction l with
  | nil => cases h
  | cons x t ih =>
    rcases List.mem_cons.mp h with rfl | h2
    · exact Nat.le_max_left _ _
    · exact le_trans (ih h2) (Nat.le_max_right _ _)

/-- A header cell never exceeds its column width. -/
lemma header_cell_le (headers : List String) (rows : List (List String))
    (hrect : ∀ r ∈ rows, r.length = headers.length) (i : Nat) (hi : i < headers.length) :
    (headers.getD i "").length ≤ (widths_of rows headers).getD i 0 := by
  rw [widths_of_getD headers rows hrect i hi]
  exact Nat.le_max_left _ _

/-- A row cell never exceeds its column width. -/
lemma row_cell_le (headers : List String) (rows : List (List String))
    (hrect : ∀ r ∈ rows, r.length = headers.length) (r : List String) (hr : r ∈ rows)
    (i : Nat) (hi : i < headers.length) :
    (r.getD i "").length ≤ (widths_of rows headers).getD i 0 := by
  rw [widths_of_getD headers rows hrect i hi]
  exact le_trans
    (le_foldr_max ((r.getD i "").length) _
      (List.mem_map_of_mem (fun r => (r.getD i "").length) hr))
    (Nat.le_max_right _ _)

/-! ## The table formatter: line lengths -/

/-- Length of a left-justified cell. -/
lemma ljust_length (s : String) (w : Nat) : (ljust s w).length = Nat.max s.length w := by
  have h : (String.mk (List.replicate (w - s.length) ' ')).length = w - s.length := by
    show (List.replicate (w - s.length) ' ').length = w - s.length
    simp
  rw [ljust, String.length_append, h]
  rcases Nat.le_total s.length w with h2 | h2
  · have h3 : Nat.max s.length w = w := Nat.max_eq_right h2
    rw [h3]
    omega
  · have h3 : Nat.max s.length w = s.length := Nat.max_eq_left h2
    rw [h3]
    omega

/-- Length of a joined line. -/
lemma pyJoin_length (sep : String) :
    ∀ (l : List String),
      (pyJoin sep l).length = (l.map String.length).sum + sep.length * (l.length - 1) := by
  intro l
  induction l with
  | nil => simp [pyJoin]
  | cons x t ih =>
    cases t with
    | nil => simp [pyJoin]
    | cons y t2 =>
      rw [pyJoin, String.length_append, String.length_append, ih]
      simp only [List.map_cons, List.sum_cons, List.length_cons]
      rw [Nat.add_sub_cancel, Nat.succ_sub_one, Nat.mul_succ]
      omega

/-- The rendered cells of a line have exactly the column widths, when the
parts fit their columns. -/
lemma map_len_ljust :
    ∀ (widths : List Nat) (parts : List String),
      parts.length = widths.length →
      (∀ i, i < widths.length → (parts.getD i "").length ≤ widths.getD i 0) →
      ((parts.zip widths).map (fun pw => ljust pw.1 pw.2)).map String.length = widths := by
  intro widths
  induction widths with
  | nil =>
    intro parts h _
    rw [List.length_eq_zero.mp h]
    rfl
  | cons w ws ih =>
    intro parts h hle
    cases parts with
    | nil => simp at h
    | cons p ps =>
      simp only [List.zip_cons_cons, List.map_cons]
      have h0 : p.length ≤ w := by simpa using hle 0 (Nat.succ_pos _)
      rw [ljust_length]
      have h3 : Nat.max p.length w = w := Nat.max_eq_right h0
      rw [h3]
      congr 1
      refine ih ps (by simpa using h) ?_
      intro i hi
      simpa using hle (i + 1) (Nat.succ_lt_succ hi)

/-- Length of a data or header line. -/
lemma table_line_length (widths : List Nat) (parts : List String)
    (h : parts.length = widths.length)
    (hle : ∀ i, i < widths.length → (parts.getD i "").length ≤ widths.getD i 0) :
    (table_line widths parts).length = widths.sum + 3 * (widths.length - 1) := by
  have hcells := map_len_ljust widths parts h hle
  have hcount : ((parts.zip widths).map (fun pw => ljust pw.1 pw.2)).length = widths.length := by
    have := congrArg List.length hcells
    simpa using this
  rw [table_line, pyJoin_length, hcells, hcount]
  rfl

/-- Length of the separator line. -/
lemma sep_line_length (widths : List Nat) :
    (sep_line widths).length = widths.sum + 3 * (widths.length - 1) := by
  have h1 : (widths.map (fun w => String.mk (List.replicate w '-'))).map String.length
      = widths := by
    rw [List.map_map]
    have h2 : (String.length ∘ fun w => String.mk (List.replicate w '-')) = id := by
      funext w
      show (List.replicate w '-').length = w
      simp
    rw [h2, List.map_id]
  rw [sep_line, pyJoin_length, h1, List.length_map]
  rfl

/-- Every line of the rendered table has the common length: the sum of
the widths plus three characters between adjacent columns. -/
lemma table_lines_length (headers : List String) (rows : List (List String))
    (hrect : ∀ r ∈ rows, r.length = headers.length) :
    ∀ s ∈ table_lines rows headers,
      s.length = (widths_of rows headers).sum + 3 * ((widths_of rows headers).length - 1) := by
  intro s hs
  rcases List.mem_cons.mp hs with rfl | hs2
  · refine table_line_length _ _ (widths_of_length headers rows hrect).symm ?_
    intro i hi
    rw [widths_of_length headers rows hrect] at hi
    exact header_cell_le headers rows hrect i hi
  rcases List.mem_cons.mp hs2 with rfl | hs3
  · exact sep_line_length _
  · obtain ⟨r, hr, rfl⟩ := List.mem_map.mp hs3
    refine table_line_length _ _ ?_ ?_
    · rw [widths_of_length headers rows hrect]
      exact hrect r hr
    · intro i hi
      rw [widths_of_length headers rows hrect] at hi
      exact row_cell_le headers rows hrect r hr i hi

/-! ## C4: fmt_table computes column widths and renders aligned cells -/

/-- C4: on a non-empty header list and rows of matching arity, fmt_table
uses, for each column, the width that is the maximum length over the
header cell and all row cells of that column; every cell is left-padded
to exactly its column width; and the output is the header line, the dash
separator, and the data lines, with cells joined by the three-character
column separator. -/
theorem fmt_table_correct (headers : List String) (rows : List (List String))
    (_hne : headers ≠ []) (hrect : ∀ r ∈ rows, r.length = headers.length) :
    ∃ widths : List Nat,
      widths.length = headers.length ∧
      (∀ i, i < headers.length → widths.getD i 0
          = Nat.max (headers.getD i "").length
              ((rows.map (fun r => (r.getD i "").length)).foldr Nat.max 0)) ∧
      (∀ parts ∈ headers :: rows, ∀ i, i < headers.length →
        (ljust (parts.getD i "") (widths.getD i 0)).length = widths.getD i 0) ∧
      fmt_table rows headers
        = pyJoin "\n" (table_line widths headers :: sep_line widths ::
            rows.map (table_line widths)) := by
  refine ⟨widths_of rows headers, widths_of_length headers rows hrect,
    fun i hi => widths_of_getD headers rows hrect i hi, ?_, rfl⟩
  intro parts hp i hi
  rw [ljust_length]
  rcases List.mem_cons.mp hp with rfl | hp2
  · exact Nat.max_eq_right (header_cell_le parts rows hrect i hi)
  · exact Nat.max_eq_right (row_cell_le headers rows hrect parts hp2 i hi)

/-- Witness for C4 on a concrete two-column table. -/
theorem fmt_table_correct_witness :
    ((["a", "bb"] : List String) ≠ [] ∧
      (∀ r ∈ ([[ "ccc", "d"]] : List (List String)), r.length = (["a", "bb"] : List String).length)) ∧
    (∃ widths : List Nat,
      widths.length = (["a", "bb"] : List String).length ∧
      (∀ i, i < (["a", "bb"] : List String).length → widths.getD i 0
          = Nat.max ((["a", "bb"] : List String).getD i "").length
              ((([["ccc", "d"]] : List (List String)).map
                  (fun r => (r.getD i "").length)).foldr Nat.max 0)) ∧
      (∀ parts ∈ (["a", "bb"] : List String) :: [["ccc", "d"]],
        ∀ i, i < (["a", "bb"] : List String).length →
          (ljust (parts.getD i "") (widths.getD i 0)).length = widths.getD i 0) ∧
      fmt_table [["ccc", "d"]] ["a", "bb"]
        = pyJoin "\n" (table_line widths ["a", "bb"] :: sep_line widths ::
            ([["ccc", "d"]] : List (List String)).map (table_line widths))) :=
  ⟨⟨by decide, by decide⟩,
    fmt_table_correct ["a", "bb"] [["ccc", "d"]] (by decide) (by decide)⟩

/-! ## C9: all table lines share one length -/

/-- C9: on a non-empty header list and rows of matching arity, the header
line, the separator line and every data line of fmt_table have the same
character length. -/
theorem fmt_table_aligned (headers : List String) (rows : List (List String))
    (_hne : headers ≠ []) (hrect : ∀ r ∈ rows, r.length = headers.length) :
    ∀ s ∈ table_lines rows headers, ∀ t ∈ table_lines rows headers,
      s.length = t.length := by
  intro s hs t ht
  rw [table_lines_length headers rows hrect s hs, table_lines_length headers rows hrect t ht]

/-- Witness for C9 on a concrete two-column table. -/
theorem fmt_table_aligned_witness :
    ((["a", "bb"] : List String) ≠ [] ∧
      (∀ r ∈ ([["ccc", "d"]] : List (List String)), r.length = (["a", "bb"] : List String).length)) ∧
    (∀ s ∈ table_lines [["ccc", "d"]] ["a", "bb"],
      ∀ t ∈ table_lines [["ccc", "d"]] ["a", "bb"], s.length = t.length) :=
  ⟨⟨by decide, by decide⟩,
    fmt_table_aligned ["a", "bb"] [["ccc", "d"]] (by decide) (by decide)⟩

end WeatherCli
